import Mathlib

/-!
Shallow embedding of the GitHub profile-comparison core (src/unnamed/part_004,
together with the interfaces of src/src/types/index.ts): the ProfileFetcher
(`fetchUser`, `fetchUserRepos`, `calculateProfileMetrics`, `fetchCompleteProfile`)
and the RepositoryHealthAnalyzer (`analyzeRepositoryHealth` and its sub-fetch
wrappers).  The HTTP layer is replaced by an oracle: every endpoint's outcome
(parsed JSON body, non-2xx response, or network failure) is a `FetchResult`
input, and each `fetchX` wrapper reproduces the source's `response.ok` /
`catch` handling on it.  JavaScript numbers appearing in scores are modelled
as `ℚ`; date strings are modelled by their epoch-millisecond values.
-/

namespace GitHubCompare

/-- JavaScript `Math.min` on two numbers, as used by the scoring code. -/
def mathMin (a b : ℚ) : ℚ := if a ≤ b then a else b

/-- Does the character list `needle` occur at the start of `hay`? -/
def startsWithChars : List Char → List Char → Bool
  | [], _ => true
  | _ :: _, [] => false
  | a :: as, b :: bs => a == b && startsWithChars as bs

/-- Does the character list `needle` occur anywhere inside `hay`?  Models
JavaScript `String.prototype.includes`. -/
def containsChars (needle : List Char) : List Char → Bool
  | [] => needle.isEmpty
  | c :: cs => startsWithChars needle (c :: cs) || containsChars needle cs

/-- JavaScript `s.toLowerCase()`, modelled on the character list (the source
only ever lowercases ASCII file names and descriptions). -/
def strLower (s : String) : List Char := s.data.map Char.toLower

/-- JavaScript `s.toLowerCase().includes(pat)` for a string `s`. -/
def lowerIncludes (s : String) (pat : String) : Bool :=
  containsChars pat.data (strLower s)

/-- JavaScript truthiness of a nullable string field (`null`, `undefined` and
`""` are falsy). -/
def truthy : Option String → Bool
  | none => false
  | some s => !s.isEmpty

/-- GitHubUser (src/src/types/index.ts): the fields the core logic reads.
Display-only fields (id, avatar_url, html_url, name, company, location,
email, updated_at) are omitted; `created_at` is modelled by its
epoch-millisecond value `created_at_ms`. -/
structure GitHubUser where
  login : String
  blog : Option String
  bio : Option String
  public_repos : Nat
  public_gists : Nat
  followers : Nat
  following : Nat
  created_at_ms : Int
deriving DecidableEq, Inhabited

/-- GitHubRepo (src/src/types/index.ts): the fields the core logic reads
(id, full_name, html_url, watchers_count, updated_at omitted as unused). -/
structure GitHubRepo where
  name : String
  description : Option String
  fork : Bool
  stargazers_count : Nat
  forks_count : Nat
  language : Option String
deriving DecidableEq, Inhabited

/-- ComparisonMetrics (src/src/types/index.ts).  Scores produced by divisions
are `ℚ`; plain counters stay `Nat`. -/
structure ComparisonMetrics where
  totalStars : Nat
  totalForks : Nat
  followers : Nat
  following : Nat
  repositories : Nat
  languages : Nat
  contributions : Nat
  readmeQualityScore : ℚ
  prIssues : Nat
  achievementScore : Nat
  communityScore : ℚ
  profileAge : Int
  totalScore : ℚ
deriving DecidableEq

/-- ProfileWithMetrics (src/src/types/index.ts). -/
structure ProfileWithMetrics where
  user : GitHubUser
  metrics : ComparisonMetrics
  repos : List GitHubRepo
deriving DecidableEq

/-- Outcome of one raw `fetch` call against an endpoint: a parsed 2xx body,
a non-2xx response (status and statusText), or a rejected promise. -/
inductive FetchResult (α : Type) where
  | ok (body : α)
  | httpError (status : Nat) (statusText : String)
  | networkError (msg : String)
deriving DecidableEq

/-- Did the raw fetch succeed with a 2xx body? -/
def FetchResult.isOk {α : Type} : FetchResult α → Bool
  | .ok _ => true
  | _ => false

/-- Errors thrown by the service layer.  The source throws plain `Error`s;
the spec's taxonomy distinguishes the 404 "not found" error from other
API errors and network failures, and the source builds the corresponding
distinct messages, so they are modelled as distinct constructors. -/
inductive GHError where
  | notFound (msg : String)
  | apiError (msg : String)
  | network (msg : String)
deriving DecidableEq

/-- Is an `Except` a success? -/
def exceptOk {ε α : Type} : Except ε α → Bool
  | .ok _ => true
  | .error _ => false

/-- fetchUser (part_004 lines 5-21): 404 becomes the "not found" error,
any other non-2xx becomes a GitHub API error, and the catch block
rethrows, so failures propagate. -/
def fetchUser (username : String) : FetchResult GitHubUser → Except GHError GitHubUser
  | .ok u => .ok u
  | .httpError status statusText =>
      if status == 404 then
        .error (.notFound ("User " ++ username ++ " not found"))
      else
        .error (.apiError ("GitHub API error: " ++ statusText))
  | .networkError m => .error (.network m)

/-- fetchUserRepos (part_004 lines 23-36): any non-2xx throws, the catch
rethrows, so failures propagate. -/
def fetchUserRepos : FetchResult (List GitHubRepo) → Except GHError (List GitHubRepo)
  | .ok rs => .ok rs
  | .httpError _ statusText => .error (.apiError ("GitHub API error: " ++ statusText))
  | .networkError m => .error (.network m)

/-- fetchUserContributions (part_004 lines 236-247): a non-2xx response or a
thrown error degrades to 0, otherwise the event count is returned.  An
event's payload is irrelevant, only the array length matters. -/
def fetchUserContributions : FetchResult (List Unit) → Nat
  | .ok events => events.length
  | _ => 0

/-- Search-endpoint body: GitHub's `total_count`, absent when the endpoint
returned an error body instead of a result page. -/
structure SearchResult where
  total_count : Option Nat
deriving DecidableEq

/-- JavaScript `(r.total_count || 0)` on a parsed search response: a non-2xx
response still parses as JSON, but its error body has no `total_count`. -/
def searchTotal : FetchResult SearchResult → Nat
  | .ok s => s.total_count.getD 0
  | _ => 0

/-- calculatePRsAndIssues (part_004 lines 268-284): the two search queries run
in parallel; a rejected fetch (network failure) is caught and degrades the
whole sub-step to 0, while a non-2xx response merely contributes 0 through
`total_count || 0`. -/
def calculatePRsAndIssues (prs issues : FetchResult SearchResult) : Nat :=
  match prs, issues with
  | .networkError _, _ => 0
  | _, .networkError _ => 0
  | p, i => searchTotal p + searchTotal i

/-- fetchUserLanguages (part_004 lines 249-257): the number of distinct truthy
`language` values across the repo list (a `Set` in the source). -/
def fetchUserLanguages (repos : List GitHubRepo) : Nat :=
  (((repos.filterMap (fun repo => repo.language)).filter (fun l => !l.isEmpty)).dedup).length

/-- The `hasReadme` heuristic local to calculateReadmeQuality (part_004
line 261): some non-fork repo's description mentions "readme",
case-insensitively. -/
def hasReadmeDescription (repos : List GitHubRepo) : Bool :=
  (repos.filter (fun repo => !repo.fork)).any (fun repo =>
    match repo.description with
    | some d => lowerIncludes d "readme"
    | none => false)

/-- The `hasDetailedDescriptions` count local to calculateReadmeQuality
(part_004 line 263): repos whose (truthy) description is longer than 50
characters. -/
def detailedDescriptionCount (repos : List GitHubRepo) : Nat :=
  (repos.filter (fun repo =>
    match repo.description with
    | some d => decide (d.length > 50)
    | none => false)).length

/-- calculateReadmeQuality (part_004 lines 259-266): +5 if some non-fork
repo's description mentions "readme" (case-insensitively), plus
`Math.min(hasDetailedDescriptions / 5, 5)`. -/
def calculateReadmeQuality (repos : List GitHubRepo) : ℚ :=
  let score : ℚ := if hasReadmeDescription repos then 5 else 0
  score + mathMin ((detailedDescriptionCount repos : ℚ) / 5) 5

/-- calculateAchievementScore (part_004 lines 286-294): one point per
satisfied profile-completeness condition. -/
def calculateAchievementScore (user : GitHubUser) : Nat :=
  (if user.public_repos > 10 then 1 else 0) +
  (if user.followers > 50 then 1 else 0) +
  (if user.public_gists > 5 then 1 else 0) +
  (if truthy user.bio then 1 else 0) +
  (if truthy user.blog then 1 else 0)

/-- calculateCommunityScore (part_004 lines 296-305). -/
def calculateCommunityScore (repos : List GitHubRepo) : ℚ :=
  let contributedRepos := (repos.filter (fun repo => repo.fork)).length
  let popularRepos := (repos.filter (fun repo => decide (repo.stargazers_count > 10))).length
  mathMin ((contributedRepos : ℚ) / 10) 5 + mathMin ((popularRepos : ℚ) / 5) 5

/-- calculateProfileAgeInDays (part_004 lines 348-353): whole days, rounded
up, between `created_at` and now. -/
def calculateProfileAgeInDays (createdAtMs nowMs : Int) : Int :=
  Int.ceil ((((nowMs - createdAtMs).natAbs : ℚ)) / (1000 * 60 * 60 * 24))

/-- calculateProfileMetrics (part_004 lines 307-346).  The two awaited bonus
sub-fetches (event feed, the two search queries) enter as oracle results;
everything else is computed from `user` and `repos` exactly as the source
does. -/
def calculateProfileMetrics (user : GitHubUser) (repos : List GitHubRepo)
    (eventsResp : FetchResult (List Unit))
    (searchPrsResp searchIssuesResp : FetchResult SearchResult)
    (nowMs : Int) : ComparisonMetrics :=
  let contributions := fetchUserContributions eventsResp
  let languages := fetchUserLanguages repos
  let readmeQualityScore := calculateReadmeQuality repos
  let prIssues := calculatePRsAndIssues searchPrsResp searchIssuesResp
  let achievementScore := calculateAchievementScore user
  let communityScore := calculateCommunityScore repos
  let totalStars : Nat := repos.foldl (fun acc repo => acc + repo.stargazers_count) 0
  let totalForks : Nat := repos.foldl (fun acc repo => acc + repo.forks_count) 0
  let score : ℚ :=
    mathMin ((contributions : ℚ) / 1000) 1 * 15 +
    mathMin ((user.public_repos : ℚ) / 50) 1 * 10 +
    mathMin ((totalStars : ℚ) / 500) 1 * 15 +
    mathMin ((totalForks : ℚ) / 200) 1 * 10 +
    mathMin ((languages : ℚ) / 10) 1 * 10 +
    readmeQualityScore +
    mathMin ((prIssues : ℚ) / 100) 1 * 10 +
    mathMin ((user.followers : ℚ) / 500) 1 * 5 +
    (achievementScore : ℚ) +
    communityScore
  { totalStars := totalStars
    totalForks := totalForks
    followers := user.followers
    following := user.following
    repositories := user.public_repos
    languages := languages
    contributions := contributions
    readmeQualityScore := readmeQualityScore
    prIssues := prIssues
    achievementScore := achievementScore
    communityScore := communityScore
    profileAge := calculateProfileAgeInDays user.created_at_ms nowMs
    totalScore := score }

/-- Endpoints touched by `fetchCompleteProfile`, for recording which fetches
were actually attempted. -/
inductive Endpoint where
  | userEp
  | reposEp
  | eventsEp
  | searchPrEp
  | searchIssueEp
deriving DecidableEq

/-- Oracle for one `fetchCompleteProfile` call: the outcome each endpoint
would produce if requested. -/
structure Api where
  username : String
  userResp : FetchResult GitHubUser
  reposResp : FetchResult (List GitHubRepo)
  eventsResp : FetchResult (List Unit)
  searchPrsResp : FetchResult SearchResult
  searchIssuesResp : FetchResult SearchResult
  nowMs : Int

/-- fetchCompleteProfile (part_004 lines 355-365): `await fetchUser`, then
`await fetchUserRepos`, then `await calculateProfileMetrics`.  The second
component records the endpoints attempted, in order: an `await` that
throws stops the later fetches from ever being issued. -/
def fetchCompleteProfile (api : Api) :
    Except GHError ProfileWithMetrics × List Endpoint :=
  match fetchUser api.username api.userResp with
  | Except.error e => (Except.error e, [Endpoint.userEp])
  | Except.ok user =>
    match fetchUserRepos api.reposResp with
    | Except.error e => (Except.error e, [Endpoint.userEp, Endpoint.reposEp])
    | Except.ok repos =>
      (Except.ok
        { user := user
          metrics := calculateProfileMetrics user repos api.eventsResp
            api.searchPrsResp api.searchIssuesResp api.nowMs
          repos := repos },
       [Endpoint.userEp, Endpoint.reposEp, Endpoint.eventsEp,
        Endpoint.searchPrEp, Endpoint.searchIssueEp])

/-- One commit entry as the analyzer reads it: `commit.commit.author.date`,
modelled by its epoch-millisecond value. -/
structure CommitEntry where
  author_date_ms : Int
deriving DecidableEq, Inhabited

/-- One item of the issues endpoint: its `state` and whether the object
carries a `pull_request` field (the endpoint mixes PRs in). -/
structure IssueEntry where
  state : String
  pull_request : Bool
deriving DecidableEq, Inhabited

/-- One item of the pulls endpoint. -/
structure PullEntry where
  state : String
deriving DecidableEq, Inhabited

/-- One contributor entry; only the array length is ever used. -/
structure Contributor where
  login : String
deriving DecidableEq, Inhabited

/-- One file of the root directory listing. -/
structure ContentFile where
  name : String
deriving DecidableEq, Inhabited

/-- fetchRepository (part_004 lines 38-54): 404 becomes the "not found"
error, other non-2xx an API error; the catch rethrows, so failures
propagate. -/
def fetchRepository (owner repo : String) :
    FetchResult GitHubRepo → Except GHError GitHubRepo
  | .ok r => .ok r
  | .httpError status statusText =>
      if status == 404 then
        .error (.notFound ("Repository " ++ owner ++ "/" ++ repo ++ " not found"))
      else
        .error (.apiError ("GitHub API error: " ++ statusText))
  | .networkError m => .error (.network m)

/-- fetchRepositoryContents (part_004 lines 56-69): non-2xx throws and the
catch rethrows, so failures propagate (the analyzer adds its own
`.catch(() => [])` at the call site). -/
def fetchRepositoryContents :
    FetchResult (List ContentFile) → Except GHError (List ContentFile)
  | .ok files => .ok files
  | .httpError _ statusText => .error (.apiError ("GitHub API error: " ++ statusText))
  | .networkError m => .error (.network m)

/-- fetchRepositoryLanguages (part_004 lines 71-84): the catch block swallows
every failure (non-2xx throw included) and returns the empty map. -/
def fetchRepositoryLanguages : FetchResult (List (String × Nat)) → List (String × Nat)
  | .ok m => m
  | _ => []

/-- fetchRepositoryCommits (part_004 lines 86-99): every failure degrades to
the empty list via the catch block. -/
def fetchRepositoryCommits : FetchResult (List CommitEntry) → List CommitEntry
  | .ok commits => commits
  | _ => []

/-- fetchRepositoryIssues (part_004 lines 101-114): every failure degrades to
the empty list via the catch block. -/
def fetchRepositoryIssues : FetchResult (List IssueEntry) → List IssueEntry
  | .ok issues => issues
  | _ => []

/-- fetchRepositoryPullRequests (part_004 lines 116-129): every failure
degrades to the empty list via the catch block. -/
def fetchRepositoryPullRequests : FetchResult (List PullEntry) → List PullEntry
  | .ok prs => prs
  | _ => []

/-- fetchRepositoryContributors (part_004 lines 131-144): every failure
degrades to the empty list via the catch block. -/
def fetchRepositoryContributors : FetchResult (List Contributor) → List Contributor
  | .ok cs => cs
  | _ => []

/-- Issue or PR counts split by state, as returned in the report. -/
structure StateCounts where
  «open» : Nat
  closed : Nat
  total : Nat
deriving DecidableEq, Inhabited

/-- The four documentation flags of the report. -/
structure Documentation where
  hasReadme : Bool
  hasLicense : Bool
  hasContributing : Bool
  hasCodeOfConduct : Bool
deriving DecidableEq, Inhabited

/-- The activity summary of the report. -/
structure Activity where
  recentCommits : Nat
  lastCommitDate : Option Int
  isActive : Bool
deriving DecidableEq, Inhabited

/-- The repository health report object built by `analyzeRepositoryHealth`. -/
structure HealthReport where
  repository : GitHubRepo
  languages : List (String × Nat)
  commits : List CommitEntry
  recentCommits : List CommitEntry
  issues : StateCounts
  pullRequests : StateCounts
  contributors : Nat
  documentation : Documentation
  activity : Activity
  healthScore : Nat
  healthGrade : String
deriving DecidableEq, Inhabited

/-- Oracle for one `analyzeRepositoryHealth` call: the outcome each of the
seven endpoints would produce. -/
structure RepoApi where
  owner : String
  repo : String
  repoResp : FetchResult GitHubRepo
  languagesResp : FetchResult (List (String × Nat))
  commitsResp : FetchResult (List CommitEntry)
  issuesResp : FetchResult (List IssueEntry)
  pullsResp : FetchResult (List PullEntry)
  contributorsResp : FetchResult (List Contributor)
  contentsResp : FetchResult (List ContentFile)
  nowMs : Int

/-- Thirty days in milliseconds, the window used for "recent" commits
(`thirtyDaysAgo` in the source; calendar-day subtraction is modelled as a
fixed 30-day millisecond offset). -/
def thirtyDaysMs : Int := 30 * (1000 * 60 * 60 * 24)

/-- Body of analyzeRepositoryHealth after the `Promise.all` join (part_004
lines 158-229): the derived flags, partitions, health score and report
object, given the successfully fetched repository record and the oracle
for the six remaining endpoints. -/
def buildHealthReport (repository : GitHubRepo) (api : RepoApi) : HealthReport :=
    let languages := fetchRepositoryLanguages api.languagesResp
    let commits := fetchRepositoryCommits api.commitsResp
    let issues := fetchRepositoryIssues api.issuesResp
    let pullRequests := fetchRepositoryPullRequests api.pullsResp
    let contributors := fetchRepositoryContributors api.contributorsResp
    let contents := (fetchRepositoryContents api.contentsResp).toOption.getD []
    let hasReadme := contents.any (fun file => lowerIncludes file.name "readme")
    let hasLicense := contents.any (fun file =>
      lowerIncludes file.name "license" || lowerIncludes file.name "licence")
    let hasContributing := contents.any (fun file => lowerIncludes file.name "contributing")
    let hasCodeOfConduct := contents.any (fun file =>
      lowerIncludes file.name "code_of_conduct" || lowerIncludes file.name "code-of-conduct")
    let recentCommits := commits.filter (fun commit =>
      decide (api.nowMs - thirtyDaysMs < commit.author_date_ms))
    let openIssues := issues.filter (fun issue =>
      issue.state == "open" && !issue.pull_request)
    let closedIssues := issues.filter (fun issue =>
      issue.state == "closed" && !issue.pull_request)
    let openPRs := pullRequests.filter (fun pr => pr.state == "open")
    let closedPRs := pullRequests.filter (fun pr => pr.state == "closed")
    let healthScore :=
      (if hasReadme then 20 else 0) +
      (if hasLicense then 15 else 0) +
      (if hasContributing then 10 else 0) +
      (if hasCodeOfConduct then 10 else 0) +
      (if truthy repository.description then 10 else 0) +
      (if recentCommits.length > 0 then 15 else 0) +
      (if contributors.length > 1 then 10 else 0) +
      (if repository.stargazers_count > 0 then 5 else 0) +
      (if repository.forks_count > 0 then 5 else 0)
    { repository := repository
      languages := languages
      commits := commits.take 10
      recentCommits := recentCommits
      issues :=
        { «open» := openIssues.length
          closed := closedIssues.length
          total := issues.length }
      pullRequests :=
        { «open» := openPRs.length
          closed := closedPRs.length
          total := pullRequests.length }
      contributors := contributors.length
      documentation :=
        { hasReadme := hasReadme
          hasLicense := hasLicense
          hasContributing := hasContributing
          hasCodeOfConduct := hasCodeOfConduct }
      activity :=
        { recentCommits := recentCommits.length
          lastCommitDate := commits.head?.map (fun c => c.author_date_ms)
          isActive := decide (recentCommits.length > 0) }
      healthScore := healthScore
      healthGrade :=
        if healthScore ≥ 80 then "A"
        else if healthScore ≥ 60 then "B"
        else if healthScore ≥ 40 then "C"
        else "D" }

/-- analyzeRepositoryHealth (part_004 lines 146-234).  The seven fetches are
joined by `Promise.all`: only `fetchRepository` can reject (the five
degradable wrappers swallow their own failures, and the contents fetch
carries an explicit `.catch(() => [])` at the call site), so the batch —
and with it the whole analysis — fails exactly when the repository-record
fetch does, and the catch block rethrows that error. -/
def analyzeRepositoryHealth (api : RepoApi) : Except GHError HealthReport :=
  match fetchRepository api.owner api.repo api.repoResp with
  | Except.error e => Except.error e
  | Except.ok repository => Except.ok (buildHealthReport repository api)

/-- The grading expression applied to a health score (the conditional on
part_004 line 228). -/
def healthGradeOf (healthScore : Nat) : String :=
  if healthScore ≥ 80 then "A"
  else if healthScore ≥ 60 then "B"
  else if healthScore ≥ 40 then "C"
  else "D"

/-- README-quality score as the specification words it: +5 for a non-fork
repo description mentioning "readme", plus
`min(count of repos with description length > 50, 5) / 5 * 5`.  Stated
from the spec's words, for comparison against `calculateReadmeQuality`. -/
def readmeQualityClaimed (repos : List GitHubRepo) : ℚ :=
  (if hasReadmeDescription repos then 5 else 0) +
    min ((detailedDescriptionCount repos : ℚ)) 5 / 5 * 5

/-- README-quality score with the second term as the code computes it:
`min(count / 5, 5)` instead of the spec's `min(count, 5)`. -/
def readmeQualityAmended (repos : List GitHubRepo) : ℚ :=
  (if hasReadmeDescription repos then 5 else 0) +
    min ((detailedDescriptionCount repos : ℚ) / 5) 5

theorem mathMin_eq_min (a b : ℚ) : mathMin a b = min a b := by
  rw [mathMin, min_def]

theorem list_foldl_add_eq_sum {α : Type} (f : α → ℕ) :
    ∀ (l : List α) (n : ℕ),
      l.foldl (fun acc x => acc + f x) n = n + (l.map f).sum := by
  intro l
  induction l with
  | nil => intro n; simp
  | cons a as ih =>
    intro n
    simp only [List.foldl_cons, List.map_cons, List.sum_cons, ih]
    omega

theorem ite_le_nat (c : Prop) [Decidable c] (a : ℕ) : (if c then a else 0) ≤ a := by
  split <;> omega

theorem analyze_ok_elim {api : RepoApi} {r : HealthReport}
    (h : analyzeRepositoryHealth api = Except.ok r) :
    ∃ repository, api.repoResp = FetchResult.ok repository ∧
      r = buildHealthReport repository api := by
  unfold analyzeRepositoryHealth at h
  cases hres : api.repoResp with
  | ok repository =>
    rw [hres] at h
    simp only [fetchRepository] at h
    exact ⟨repository, rfl, (Except.ok.injEq _ _ ▸ h).symm⟩
  | httpError status statusText =>
    rw [hres] at h
    by_cases h404 : (status == 404) = true <;>
      simp [fetchRepository, h404] at h
  | networkError m =>
    rw [hres] at h
    simp [fetchRepository] at h

/-- Claim C1: for every user record and fetched repo list, with the bonus
inputs (contributions, prIssues) fixed, the totalScore returned by
calculateProfileMetrics equals exactly
min(contributions/1000,1)*15 + min(public_repos/50,1)*10 +
min(totalStars/500,1)*15 + min(totalForks/200,1)*10 +
min(languages/10,1)*10 + readmeQualityScore + min(prIssues/100,1)*10 +
min(followers/500,1)*5 + achievementScore + communityScore, where
totalStars/totalForks are the sums of stargazers_count/forks_count over the
fetched repo list. -/
theorem totalScore_weighted_formula (user : GitHubUser) (repos : List GitHubRepo)
    (eventsResp : FetchResult (List Unit))
    (searchPrsResp searchIssuesResp : FetchResult SearchResult) (nowMs : Int) :
    (calculateProfileMetrics user repos eventsResp searchPrsResp
        searchIssuesResp nowMs).totalScore =
      min ((fetchUserContributions eventsResp : ℚ) / 1000) 1 * 15 +
      min ((user.public_repos : ℚ) / 50) 1 * 10 +
      min (((repos.map (fun repo => repo.stargazers_count)).sum : ℚ) / 500) 1 * 15 +
      min (((repos.map (fun repo => repo.forks_count)).sum : ℚ) / 200) 1 * 10 +
      min ((fetchUserLanguages repos : ℚ) / 10) 1 * 10 +
      calculateReadmeQuality repos +
      min ((calculatePRsAndIssues searchPrsResp searchIssuesResp : ℚ) / 100) 1 * 10 +
      min ((user.followers : ℚ) / 500) 1 * 5 +
      (calculateAchievementScore user : ℚ) +
      calculateCommunityScore repos
    ∧ (calculateProfileMetrics user repos eventsResp searchPrsResp
        searchIssuesResp nowMs).totalStars
        = (repos.map (fun repo => repo.stargazers_count)).sum
    ∧ (calculateProfileMetrics user repos eventsResp searchPrsResp
        searchIssuesResp nowMs).totalForks
        = (repos.map (fun repo => repo.forks_count)).sum := by
  refine ⟨?_, ?_, ?_⟩ <;>
    simp [calculateProfileMetrics, mathMin_eq_min, list_foldl_add_eq_sum,
      Function.comp_def]

/-- Claim C10: the repositories field of the computed ComparisonMetrics
equals the user's public_repos counter, not the length of the fetched repo
list, and the field differs from the list length whenever the profile
counter disagrees with the list (e.g. more than 100 public repositories
against the truncated 100-item page). -/
theorem repositories_field_from_user_counter :
    (∀ (user : GitHubUser) (repos : List GitHubRepo)
        (eventsResp : FetchResult (List Unit))
        (searchPrsResp searchIssuesResp : FetchResult SearchResult) (nowMs : Int),
      (calculateProfileMetrics user repos eventsResp searchPrsResp
          searchIssuesResp nowMs).repositories = user.public_repos) ∧
    (∀ (user : GitHubUser) (repos : List GitHubRepo)
        (eventsResp : FetchResult (List Unit))
        (searchPrsResp searchIssuesResp : FetchResult SearchResult) (nowMs : Int),
      user.public_repos ≠ repos.length →
      (calculateProfileMetrics user repos eventsResp searchPrsResp
          searchIssuesResp nowMs).repositories ≠ repos.length) := by
  constructor
  · intro user repos eventsResp searchPrsResp searchIssuesResp nowMs
    rfl
  · intro user repos eventsResp searchPrsResp searchIssuesResp nowMs h
    simpa [calculateProfileMetrics] using h

/-- A user whose profile counter reports 101 public repositories, used to
instantiate the truncated-page scenario. -/
def exUser10 : GitHubUser :=
  { login := "u"
    blog := none
    bio := none
    public_repos := 101
    public_gists := 0
    followers := 0
    following := 0
    created_at_ms := 0 }

/-- Witness for `repositories_field_from_user_counter`: with a 101-repo
profile counter against an empty fetched page, the metrics field differs
from the page length. -/
theorem repositories_field_from_user_counter_witness :
    (calculateProfileMetrics exUser10 [] (FetchResult.ok [])
        (FetchResult.ok ⟨none⟩) (FetchResult.ok ⟨none⟩) 0).repositories
      ≠ ([] : List GitHubRepo).length :=
  repositories_field_from_user_counter.2 exUser10 [] (FetchResult.ok [])
    (FetchResult.ok ⟨none⟩) (FetchResult.ok ⟨none⟩) 0 (by decide)

/-- Claim C8 (amended): for every user whose fetched repo list is empty,
totalStars, totalForks, languages, readmeQualityScore and communityScore
are all 0, and totalScore equals
min(contributions/1000,1)*15 + min(public_repos/50,1)*10 +
min(prIssues/100,1)*10 + min(followers/500,1)*5 + achievementScore —
the non-repo-derived terms, which include the prIssues search term the
original claim omitted. -/
theorem zero_repos_metrics (user : GitHubUser)
    (eventsResp : FetchResult (List Unit))
    (searchPrsResp searchIssuesResp : FetchResult SearchResult) (nowMs : Int) :
    (calculateProfileMetrics user [] eventsResp searchPrsResp
        searchIssuesResp nowMs).totalStars = 0
    ∧ (calculateProfileMetrics user [] eventsResp searchPrsResp
        searchIssuesResp nowMs).totalForks = 0
    ∧ (calculateProfileMetrics user [] eventsResp searchPrsResp
        searchIssuesResp nowMs).languages = 0
    ∧ (calculateProfileMetrics user [] eventsResp searchPrsResp
        searchIssuesResp nowMs).readmeQualityScore = 0
    ∧ (calculateProfileMetrics user [] eventsResp searchPrsResp
        searchIssuesResp nowMs).communityScore = 0
    ∧ (calculateProfileMetrics user [] eventsResp searchPrsResp
        searchIssuesResp nowMs).totalScore =
      min ((fetchUserContributions eventsResp : ℚ) / 1000) 1 * 15 +
      min ((user.public_repos : ℚ) / 50) 1 * 10 +
      min ((calculatePRsAndIssues searchPrsResp searchIssuesResp : ℚ) / 100) 1 * 10 +
      min ((user.followers : ℚ) / 500) 1 * 5 +
      (calculateAchievementScore user : ℚ) := by
  refine ⟨rfl, rfl, rfl, ?_, ?_, ?_⟩
  · simp [calculateProfileMetrics, calculateReadmeQuality,
      hasReadmeDescription, detailedDescriptionCount, mathMin_eq_min]
  · simp [calculateProfileMetrics, calculateCommunityScore, mathMin_eq_min]
  · simp only [calculateProfileMetrics, calculateReadmeQuality,
      calculateCommunityScore, fetchUserLanguages, hasReadmeDescription,
      detailedDescriptionCount, mathMin_eq_min, List.filter_nil,
      List.filterMap_nil, List.dedup_nil, List.any_nil, List.foldl_nil,
      List.length_nil, Bool.false_eq_true, if_false]
    norm_num

/-- A user with an entirely blank profile, used for the zero-repositories
counterexample. -/
def exUser8 : GitHubUser :=
  { login := "u"
    blog := none
    bio := none
    public_repos := 0
    public_gists := 0
    followers := 0
    following := 0
    created_at_ms := 0 }

/-- Counterexample to claim C8 as stated: with an empty repo list but 100
authored PRs+issues reported by the search endpoint, totalScore is 10, not
the sum of only the terms the claim lists (contributions, public_repos,
followers, achievementScore), which is 0 — the min(prIssues/100,1)*10 term
is missing from the claim. -/
theorem zero_repos_claim_counterexample :
    (calculateProfileMetrics exUser8 [] (FetchResult.ok [])
        (FetchResult.ok ⟨some 100⟩) (FetchResult.ok ⟨some 0⟩) 0).totalScore ≠
      min ((fetchUserContributions (FetchResult.ok []) : ℚ) / 1000) 1 * 15 +
      min ((exUser8.public_repos : ℚ) / 50) 1 * 10 +
      min ((exUser8.followers : ℚ) / 500) 1 * 5 +
      (calculateAchievementScore exUser8 : ℚ) := by
  simp only [calculateProfileMetrics, calculateReadmeQuality,
    calculateCommunityScore, calculateAchievementScore, fetchUserLanguages,
    fetchUserContributions, calculatePRsAndIssues, searchTotal,
    hasReadmeDescription, detailedDescriptionCount, exUser8, truthy,
    mathMin_eq_min, List.filter_nil, List.filterMap_nil, List.dedup_nil,
    List.any_nil, List.foldl_nil, List.length_nil]
  norm_num

/-- Claim C2 (amended): readmeQualityScore equals 5 points if some non-fork
repo's description contains "readme" (case-insensitive) and 0 otherwise,
plus min(count of repos with description length > 50 divided by 5, 5) —
the code caps the quotient count/5 at 5, it does not award min(count,5) —
and the total never exceeds 10. -/
theorem readme_quality_amended_formula (repos : List GitHubRepo) :
    calculateReadmeQuality repos = readmeQualityAmended repos
    ∧ calculateReadmeQuality repos ≤ 10 := by
  constructor
  · simp [calculateReadmeQuality, readmeQualityAmended, mathMin_eq_min]
  · have h1 : (if hasReadmeDescription repos then (5 : ℚ) else 0) ≤ 5 := by
      split <;> norm_num
    have h2 : mathMin ((detailedDescriptionCount repos : ℚ) / 5) 5 ≤ 5 := by
      rw [mathMin_eq_min]
      exact min_le_right _ _
    calc calculateReadmeQuality repos
        = (if hasReadmeDescription repos then (5 : ℚ) else 0) +
            mathMin ((detailedDescriptionCount repos : ℚ) / 5) 5 := rfl
      _ ≤ 5 + 5 := add_le_add h1 h2
      _ = 10 := by norm_num

/-- A 56-character description that does not mention "readme". -/
def longDesc : String :=
  "a web application that compares two github user profiles"

/-- Five non-fork repositories with long descriptions, on which the claimed
and the implemented README-quality formulas disagree. -/
def exRepos2 : List GitHubRepo :=
  List.replicate 5
    { name := "p"
      description := some longDesc
      fork := false
      stargazers_count := 0
      forks_count := 0
      language := none }

/-- Counterexample to claim C2 as stated: on five repos with >50-character
descriptions and no "readme" mention, the code scores min(5/5,5) = 1 while
the claim's min(count,5)/5*5 = min(5,5) = 5. -/
theorem readme_quality_claim_counterexample :
    calculateReadmeQuality exRepos2 ≠ readmeQualityClaimed exRepos2 := by
  have hread : hasReadmeDescription exRepos2 = false := by decide
  have hcount : detailedDescriptionCount exRepos2 = 5 := by decide
  simp only [calculateReadmeQuality, readmeQualityClaimed, hread, hcount,
    mathMin_eq_min, Bool.false_eq_true, if_false]
  norm_num

/-- Claim C3 (amended): analyzeRepositoryHealth fails exactly when the
repository-record fetch fails; a failure (network error or non-2xx
response) of the languages, commits, issues, pull-requests or contributors
sub-fetch never propagates — each of those wrappers catches its own error
and silently degrades to an empty default, as does the directory
listing. -/
theorem health_analysis_aborts_only_on_repo_fetch (api : RepoApi) :
    exceptOk (analyzeRepositoryHealth api) = (api.repoResp).isOk := by
  unfold analyzeRepositoryHealth
  cases hres : api.repoResp with
  | ok repository => simp [fetchRepository, exceptOk, FetchResult.isOk]
  | httpError status statusText =>
    by_cases h404 : (status == 404) = true <;>
      simp [fetchRepository, h404, exceptOk, FetchResult.isOk]
  | networkError m => simp [fetchRepository, exceptOk, FetchResult.isOk]

/-- A minimal repository record for the health-analysis examples. -/
def exRepo : GitHubRepo :=
  { name := "demo"
    description := some "a demo"
    fork := false
    stargazers_count := 3
    forks_count := 1
    language := some "TypeScript" }

/-- An oracle on which the languages, commits, issues, pull-requests and
contributors fetches all fail with network errors while the repository
record itself is fetched successfully. -/
def exRepoApi3 : RepoApi :=
  { owner := "octo"
    repo := "demo"
    repoResp := FetchResult.ok exRepo
    languagesResp := FetchResult.networkError "net down"
    commitsResp := FetchResult.networkError "net down"
    issuesResp := FetchResult.networkError "net down"
    pullsResp := FetchResult.networkError "net down"
    contributorsResp := FetchResult.networkError "net down"
    contentsResp := FetchResult.ok []
    nowMs := 0 }

/-- Counterexample to claim C3 as stated: with all five of the languages,
commits, issues, pull-requests and contributors sub-fetches failing, the
analysis still succeeds instead of aborting with an error. -/
theorem subfetch_failure_does_not_abort_counterexample :
    exceptOk (analyzeRepositoryHealth exRepoApi3) = true := rfl

theorem nine_bonus_le (c1 c2 c3 c4 c5 c6 c7 c8 c9 : Prop)
    [Decidable c1] [Decidable c2] [Decidable c3] [Decidable c4] [Decidable c5]
    [Decidable c6] [Decidable c7] [Decidable c8] [Decidable c9] :
    (if c1 then 20 else 0) + (if c2 then 15 else 0) + (if c3 then 10 else 0) +
    (if c4 then 10 else 0) + (if c5 then 10 else 0) + (if c6 then 15 else 0) +
    (if c7 then 10 else 0) + (if c8 then 5 else 0) + (if c9 then 5 else 0)
      ≤ (100 : ℕ) := by
  have h1 := ite_le_nat c1 20
  have h2 := ite_le_nat c2 15
  have h3 := ite_le_nat c3 10
  have h4 := ite_le_nat c4 10
  have h5 := ite_le_nat c5 10
  have h6 := ite_le_nat c6 15
  have h7 := ite_le_nat c7 10
  have h8 := ite_le_nat c8 5
  have h9 := ite_le_nat c9 5
  omega

/-- Claim C4: for every set of fetched inputs, healthScore equals the sum of
exactly the nine bonuses (+20 README, +15 LICENSE, +10 CONTRIBUTING,
+10 CODE_OF_CONDUCT, +10 non-empty description, +15 a commit within the
last 30 days, +10 contributor count > 1, +5 stars > 0, +5 forks > 0), and
its maximum is 100. -/
theorem healthScore_additive (api : RepoApi) (r : HealthReport)
    (h : analyzeRepositoryHealth api = Except.ok r) :
    r.healthScore =
      (if r.documentation.hasReadme then 20 else 0) +
      (if r.documentation.hasLicense then 15 else 0) +
      (if r.documentation.hasContributing then 10 else 0) +
      (if r.documentation.hasCodeOfConduct then 10 else 0) +
      (if truthy r.repository.description then 10 else 0) +
      (if r.activity.recentCommits > 0 then 15 else 0) +
      (if r.contributors > 1 then 10 else 0) +
      (if r.repository.stargazers_count > 0 then 5 else 0) +
      (if r.repository.forks_count > 0 then 5 else 0)
    ∧ r.healthScore ≤ 100 := by
  obtain ⟨repository, hres, rfl⟩ := analyze_ok_elim h
  have heq : (buildHealthReport repository api).healthScore =
      (if (buildHealthReport repository api).documentation.hasReadme then 20 else 0) +
      (if (buildHealthReport repository api).documentation.hasLicense then 15 else 0) +
      (if (buildHealthReport repository api).documentation.hasContributing then 10 else 0) +
      (if (buildHealthReport repository api).documentation.hasCodeOfConduct then 10 else 0) +
      (if truthy (buildHealthReport repository api).repository.description then 10 else 0) +
      (if (buildHealthReport repository api).activity.recentCommits > 0 then 15 else 0) +
      (if (buildHealthReport repository api).contributors > 1 then 10 else 0) +
      (if (buildHealthReport repository api).repository.stargazers_count > 0 then 5 else 0) +
      (if (buildHealthReport repository api).repository.forks_count > 0 then 5 else 0) := rfl
  refine ⟨heq, ?_⟩
  rw [heq]
  exact nine_bonus_le _ _ _ _ _ _ _ _ _

/-- An oracle where every endpoint succeeds, used to instantiate the health
report theorems. -/
def exRepoApi : RepoApi :=
  { owner := "octo"
    repo := "demo"
    repoResp := FetchResult.ok exRepo
    languagesResp := FetchResult.ok [("TypeScript", 1000)]
    commitsResp := FetchResult.ok [{ author_date_ms := 1000 }]
    issuesResp := FetchResult.ok
      [{ state := "open", pull_request := false },
       { state := "open", pull_request := true },
       { state := "closed", pull_request := false },
       { state := "closed", pull_request := true }]
    pullsResp := FetchResult.ok [{ state := "open" }, { state := "closed" }]
    contributorsResp := FetchResult.ok [{ login := "a" }, { login := "b" }]
    contentsResp := FetchResult.ok [{ name := "README.md" }, { name := "LICENSE" }]
    nowMs := 2000 }

/-- The health report computed from `exRepoApi`. -/
def exHealthReport : HealthReport :=
  (analyzeRepositoryHealth exRepoApi).toOption.getD default

/-- Witness for `healthScore_additive` at the concrete oracle `exRepoApi`. -/
theorem healthScore_additive_witness :
    exHealthReport.healthScore =
      (if exHealthReport.documentation.hasReadme then 20 else 0) +
      (if exHealthReport.documentation.hasLicense then 15 else 0) +
      (if exHealthReport.documentation.hasContributing then 10 else 0) +
      (if exHealthReport.documentation.hasCodeOfConduct then 10 else 0) +
      (if truthy exHealthReport.repository.description then 10 else 0) +
      (if exHealthReport.activity.recentCommits > 0 then 15 else 0) +
      (if exHealthReport.contributors > 1 then 10 else 0) +
      (if exHealthReport.repository.stargazers_count > 0 then 5 else 0) +
      (if exHealthReport.repository.forks_count > 0 then 5 else 0)
    ∧ exHealthReport.healthScore ≤ 100 :=
  healthScore_additive exRepoApi exHealthReport rfl

/-- Claim C5: healthGrade is 'A' iff healthScore ≥ 80, 'B' iff
60 ≤ healthScore < 80, 'C' iff 40 ≤ healthScore < 60, and 'D' otherwise;
scores of exactly 80, 60, 40, 39 map to A, B, C, D, 79 maps to B, and the
report's healthGrade is exactly this function of its healthScore. -/
theorem healthGrade_thresholds :
    (∀ s : Nat,
      (healthGradeOf s = "A" ↔ 80 ≤ s) ∧
      (healthGradeOf s = "B" ↔ 60 ≤ s ∧ s < 80) ∧
      (healthGradeOf s = "C" ↔ 40 ≤ s ∧ s < 60) ∧
      (healthGradeOf s = "D" ↔ s < 40)) ∧
    healthGradeOf 80 = "A" ∧ healthGradeOf 60 = "B" ∧ healthGradeOf 40 = "C" ∧
    healthGradeOf 39 = "D" ∧ healthGradeOf 79 = "B" ∧
    (∀ (api : RepoApi) (r : HealthReport),
      analyzeRepositoryHealth api = Except.ok r →
      r.healthGrade = healthGradeOf r.healthScore) := by
  refine ⟨?_, rfl, rfl, rfl, rfl, rfl, ?_⟩
  · intro s
    unfold healthGradeOf
    refine ⟨?_, ?_, ?_, ?_⟩ <;>
      split_ifs with h1 h2 h3 <;>
        first
          | exact iff_of_true rfl (by omega)
          | exact iff_of_false (by decide) (by omega)
  · intro api r h
    obtain ⟨repository, hres, rfl⟩ := analyze_ok_elim h
    rfl

/-- Witness for the report-links-to-grading part of `healthGrade_thresholds`
at the concrete oracle `exRepoApi`. -/
theorem healthGrade_thresholds_witness :
    exHealthReport.healthGrade = healthGradeOf exHealthReport.healthScore :=
  healthGrade_thresholds.2.2.2.2.2.2 exRepoApi exHealthReport rfl

/-- Claim C9: an item of the issues endpoint carrying a pull-request marker
is never counted: the report's issues.open is the count of items with
state "open" and no pull_request field, and issues.closed the count of
items with state "closed" and no pull_request field. -/
theorem issues_exclude_pull_requests (api : RepoApi) (r : HealthReport)
    (h : analyzeRepositoryHealth api = Except.ok r) :
    r.issues.«open» =
      ((fetchRepositoryIssues api.issuesResp).filter
        (fun issue => issue.state == "open" && !issue.pull_request)).length
    ∧ r.issues.closed =
      ((fetchRepositoryIssues api.issuesResp).filter
        (fun issue => issue.state == "closed" && !issue.pull_request)).length := by
  obtain ⟨repository, hres, rfl⟩ := analyze_ok_elim h
  exact ⟨rfl, rfl⟩

/-- Witness for `issues_exclude_pull_requests` at `exRepoApi`, whose issues
endpoint returns two genuine issues and two pull requests. -/
theorem issues_exclude_pull_requests_witness :
    exHealthReport.issues.«open» =
      ((fetchRepositoryIssues exRepoApi.issuesResp).filter
        (fun issue => issue.state == "open" && !issue.pull_request)).length
    ∧ exHealthReport.issues.closed =
      ((fetchRepositoryIssues exRepoApi.issuesResp).filter
        (fun issue => issue.state == "closed" && !issue.pull_request)).length :=
  issues_exclude_pull_requests exRepoApi exHealthReport rfl

/-- Claim C7: if the root-directory-listing fetch fails while the repository
record itself is fetched, analyzeRepositoryHealth still returns a complete
report (it does not throw) and all four documentation flags are false.
The other sub-fetches need not even succeed for this to hold. -/
theorem contents_failure_degrades_gracefully (api : RepoApi)
    (repository : GitHubRepo)
    (hrepo : api.repoResp = FetchResult.ok repository)
    (hcontents : (api.contentsResp).isOk = false) :
    ∃ r, analyzeRepositoryHealth api = Except.ok r
      ∧ r.documentation.hasReadme = false
      ∧ r.documentation.hasLicense = false
      ∧ r.documentation.hasContributing = false
      ∧ r.documentation.hasCodeOfConduct = false := by
  refine ⟨buildHealthReport repository api, ?_, ?_⟩
  · unfold analyzeRepositoryHealth
    rw [hrepo]
    rfl
  · cases hc : api.contentsResp with
    | ok files => rw [hc] at hcontents; cases hcontents
    | httpError status statusText =>
      refine ⟨?_, ?_, ?_, ?_⟩ <;>
        simp [buildHealthReport, fetchRepositoryContents, hc, Except.toOption]
    | networkError m =>
      refine ⟨?_, ?_, ?_, ?_⟩ <;>
        simp [buildHealthReport, fetchRepositoryContents, hc, Except.toOption]

/-- An oracle whose directory-listing fetch fails with a network error while
every other endpoint succeeds. -/
def exRepoApi7 : RepoApi :=
  { owner := "octo"
    repo := "demo"
    repoResp := FetchResult.ok exRepo
    languagesResp := FetchResult.ok [("TypeScript", 1000)]
    commitsResp := FetchResult.ok [{ author_date_ms := 1000 }]
    issuesResp := FetchResult.ok [{ state := "open", pull_request := false }]
    pullsResp := FetchResult.ok [{ state := "open" }]
    contributorsResp := FetchResult.ok [{ login := "a" }]
    contentsResp := FetchResult.networkError "net down"
    nowMs := 2000 }

/-- Witness for `contents_failure_degrades_gracefully` at `exRepoApi7`. -/
theorem contents_failure_degrades_gracefully_witness :
    ∃ r, analyzeRepositoryHealth exRepoApi7 = Except.ok r
      ∧ r.documentation.hasReadme = false
      ∧ r.documentation.hasLicense = false
      ∧ r.documentation.hasContributing = false
      ∧ r.documentation.hasCodeOfConduct = false :=
  contents_failure_degrades_gracefully exRepoApi7 exRepo rfl rfl

/-- Claim C6: if the user-record fetch returns 404, fetchCompleteProfile
rejects with the not-found error and the repos fetch is never attempted. -/
theorem notFound_aborts_before_repos_fetch (api : Api) (statusText : String)
    (h : api.userResp = FetchResult.httpError 404 statusText) :
    (fetchCompleteProfile api).1 =
      Except.error (GHError.notFound ("User " ++ api.username ++ " not found"))
    ∧ Endpoint.reposEp ∉ (fetchCompleteProfile api).2 := by
  unfold fetchCompleteProfile
  rw [h]
  refine ⟨rfl, ?_⟩
  simp [fetchUser]

/-- An oracle whose user-record fetch returns 404 (the repos endpoint would
succeed if it were consulted). -/
def exApi6 : Api :=
  { username := "octocat"
    userResp := FetchResult.httpError 404 "Not Found"
    reposResp := FetchResult.ok []
    eventsResp := FetchResult.ok []
    searchPrsResp := FetchResult.ok { total_count := none }
    searchIssuesResp := FetchResult.ok { total_count := none }
    nowMs := 0 }

/-- Witness for `notFound_aborts_before_repos_fetch` at `exApi6`. -/
theorem notFound_aborts_before_repos_fetch_witness :
    (fetchCompleteProfile exApi6).1 =
      Except.error (GHError.notFound ("User " ++ exApi6.username ++ " not found"))
    ∧ Endpoint.reposEp ∉ (fetchCompleteProfile exApi6).2 :=
  notFound_aborts_before_repos_fetch exApi6 "Not Found" rfl

end GitHubCompare
